import Mathlib

/-
Verification of the order-management core of the TradingPlatform repository
(namespace `pulseexec`): the order store (`OrderManager.cpp`), the bounded
queue workers (`DBWriter.cpp`, `Logger.cpp`) and the retry routine of the
protocol client (`ExecutionGateway.cpp`), shallowly embedded as pure Lean
functions.  Machine doubles that only ever flow through comparisons and
assignments are embedded as rationals; timestamps obtained from the clock
are passed in explicitly as parameters.
-/

namespace PulseExec

/-- Side of an order (`Side` enum, declared in the `pulseexec` headers). -/
inductive Side where
  | BUY
  | SELL
deriving DecidableEq

/-- Order type (`OrderType` enum, declared in the `pulseexec` headers). -/
inductive OrderType where
  | LIMIT
  | MARKET
deriving DecidableEq

/-- Lifecycle state of an order (`OrderState` enum). -/
inductive OrderState where
  | PENDING
  | OPEN
  | PARTIAL
  | FILLED
  | CANCELED
  | REJECTED
deriving DecidableEq

/-- Modelled from the spec: `OrderRequest` (header `OrderRequest.hpp`, not in
src): immutable input carrying symbol, side, price, amount, order type and an
optional caller-supplied client order id.  Field shape pinned by
`tests/test_order.cpp`. -/
structure OrderRequest where
  symbol : String
  side : Side
  price : ℚ
  amount : ℚ
  type : OrderType
  client_order_id : String

/-- Modelled from the spec: `Order` (header `Order.hpp`, not in src): the
mutable lifecycle record with client order id, exchange order id, the embedded
request, state, filled amount, creation and last-update timestamps and an
error message.  Field shape pinned by `tests/test_order.cpp` and by the column
bindings in `DBWriter.cpp`. -/
structure Order where
  client_order_id : String
  exchange_order_id : String
  request : OrderRequest
  state : OrderState
  filled_amount : ℚ
  created_ts_us : Int
  last_update_ts_us : Int
  error_message : String

/-- Modelled from the spec: the `Order(client_order_id, request, now_us)`
constructor (header not in src): state PENDING, empty exchange id, zero
filled amount, created and last-update timestamps both `now_us`
(`tests/test_order.cpp`, section "Parameterized construction"). -/
def Order.create (client_order_id : String) (request : OrderRequest)
    (now_us : Int) : Order where
  client_order_id := client_order_id
  exchange_order_id := ""
  request := request
  state := OrderState.PENDING
  filled_amount := 0
  created_ts_us := now_us
  last_update_ts_us := now_us
  error_message := ""

/-- Modelled from the spec: `Order::is_terminal` (header not in src): true on
FILLED, CANCELED, REJECTED (`tests/test_order.cpp`, section "Terminal state
checks"; spec glossary "Terminal state"). -/
def Order.is_terminal (o : Order) : Bool :=
  match o.state with
  | OrderState.FILLED => true
  | OrderState.CANCELED => true
  | OrderState.REJECTED => true
  | _ => false

/-- Modelled from the spec: `Order::is_active` (header not in src): true on
OPEN and PARTIAL only (`tests/test_order.cpp`, section "Active state checks";
spec glossary "Active state"). -/
def Order.is_active (o : Order) : Bool :=
  match o.state with
  | OrderState.OPEN => true
  | OrderState.PARTIAL => true
  | _ => false

/-- Lookup in an association list, embedding `std::unordered_map::find`. -/
def mapFind {α : Type} : List (String × α) → String → Option α
  | [], _ => none
  | (k0, v0) :: rest, k => if k0 = k then some v0 else mapFind rest k

/-- Keyed assignment `map[k] = v` on an association list: replaces the entry
for `k` when present, appends it otherwise. -/
def mapSet {α : Type} : List (String × α) → String → α → List (String × α)
  | [], k, v => [(k, v)]
  | (k0, v0) :: rest, k, v =>
      if k0 = k then (k, v) :: rest else (k0, v0) :: mapSet rest k v

/-- State of `OrderManager`: the id-generation counter `order_counter_`, the
primary index `orders_by_client_id_` (client id to order record) and the
secondary index `exchange_id_to_client_id_`.  Locks, logger and db-writer
collaborators carry no order-store state and are omitted. -/
structure OrderManager where
  order_counter : Nat
  orders_by_client_id : List (String × Order)
  exchange_id_to_client_id : List (String × String)

/-- A freshly constructed `OrderManager`: empty indices, counter zero. -/
def OrderManager.empty : OrderManager where
  order_counter := 0
  orders_by_client_id := []
  exchange_id_to_client_id := []

/-- `OrderManager::generate_client_order_id` (OrderManager.cpp:15-23): takes
the current counter value and concatenates `"ORDER_" << now_ms << "_" <<
counter`.  The counter increment is performed by the caller model. -/
def generate_client_order_id (now_ms : Int) (counter : Nat) : String :=
  "ORDER_" ++ toString now_ms ++ "_" ++ toString counter

/-- The effective client order id chosen at OrderManager.cpp:27-28: the
caller-supplied id, or a generated one when the supplied id is empty. -/
def effective_client_id (m : OrderManager) (request : OrderRequest)
    (now_ms : Int) : String :=
  if request.client_order_id = "" then
    generate_client_order_id now_ms m.order_counter
  else request.client_order_id

/-- `OrderManager::create_order` (OrderManager.cpp:25-69).  `now_ms` and
`now_us` stand for the two clock reads.  Returns the pair (returned id, store
after the call); the empty string signals failure.  Logging, persistence
enqueue and callback fan-out do not change the store and are omitted. -/
def create_order (m : OrderManager) (request : OrderRequest)
    (now_ms now_us : Int) : String × OrderManager :=
  let client_order_id := effective_client_id m request now_ms
  let m1 :=
    if request.client_order_id = "" then
      { m with order_counter := m.order_counter + 1 }
    else m
  if (mapFind m1.orders_by_client_id client_order_id).isSome then
    ("", m1)
  else
    let order := Order.create client_order_id request now_us
    (client_order_id,
     { m1 with
        orders_by_client_id :=
          mapSet m1.orders_by_client_id client_order_id order })

/-- The per-order mutation performed by `OrderManager::update_order` under the
order's own lock (OrderManager.cpp:94-117): set state unconditionally, refresh
the last-update timestamp, set the exchange id only when the incoming one is
non-empty and none is stored yet, overwrite the filled amount only when the
incoming value is strictly positive, overwrite the error message only when the
incoming one is non-empty. -/
def Order.apply_update (o : Order) (new_state : OrderState)
    (exchange_order_id : String) (filled_amount : ℚ) (error_msg : String)
    (now_us : Int) : Order :=
  let o1 := { o with state := new_state, last_update_ts_us := now_us }
  let o2 :=
    if exchange_order_id ≠ "" ∧ o1.exchange_order_id = "" then
      { o1 with exchange_order_id := exchange_order_id }
    else o1
  let o3 :=
    if 0 < filled_amount then { o2 with filled_amount := filled_amount }
    else o2
  if error_msg ≠ "" then { o3 with error_message := error_msg } else o3

/-- `OrderManager::update_order` (OrderManager.cpp:71-135): false when the id
is unknown; otherwise rewrites the stored order by `Order.apply_update` and,
exactly when the exchange id is being set, records it in the secondary index
(`exchange_id_to_client_id_[exchange_order_id] = client_order_id`). -/
def update_order (m : OrderManager) (client_order_id : String)
    (new_state : OrderState) (exchange_order_id : String) (filled_amount : ℚ)
    (error_msg : String) (now_us : Int) : Bool × OrderManager :=
  match mapFind m.orders_by_client_id client_order_id with
  | none => (false, m)
  | some order =>
      let updated :=
        order.apply_update new_state exchange_order_id filled_amount
          error_msg now_us
      let exmap :=
        if exchange_order_id ≠ "" ∧ order.exchange_order_id = "" then
          mapSet m.exchange_id_to_client_id exchange_order_id client_order_id
        else m.exchange_id_to_client_id
      (true,
       { m with
          orders_by_client_id :=
            mapSet m.orders_by_client_id client_order_id updated
          exchange_id_to_client_id := exmap })

/-- `OrderManager::get_order` (OrderManager.cpp:137-155): copy of the stored
order, or failure when the id is unknown. -/
def get_order (m : OrderManager) (client_order_id : String) : Option Order :=
  mapFind m.orders_by_client_id client_order_id

/-- `OrderManager::get_order_by_exchange_id` (OrderManager.cpp:157-171):
resolve the exchange id through the secondary index, then `get_order`. -/
def get_order_by_exchange_id (m : OrderManager) (exchange_order_id : String) :
    Option Order :=
  match mapFind m.exchange_id_to_client_id exchange_order_id with
  | none => none
  | some client_order_id => get_order m client_order_id

/-- `OrderManager::has_order` (OrderManager.cpp:173-176). -/
def has_order (m : OrderManager) (client_order_id : String) : Bool :=
  (mapFind m.orders_by_client_id client_order_id).isSome

/-- `OrderManager::mark_for_cancel` (OrderManager.cpp:209-226): reads the
order through `get_order`, answers whether it exists and is active; it
performs no assignment, so the store is passed through unchanged. -/
def mark_for_cancel (m : OrderManager) (client_order_id : String) :
    Bool × OrderManager :=
  match get_order m client_order_id with
  | none => (false, m)
  | some order => if order.is_active then (true, m) else (false, m)

/-- The arguments of one `update_order` call (all but the order id), used to
talk about sequences of updates to one order. -/
structure UpdateArgs where
  new_state : OrderState
  exchange_order_id : String
  filled_amount : ℚ
  error_msg : String
  now_us : Int

/-- The store after one `update_order` call with the given argument record. -/
def stepUpdate (m : OrderManager) (client_order_id : String) (u : UpdateArgs) :
    OrderManager :=
  (update_order m client_order_id u.new_state u.exchange_order_id
      u.filled_amount u.error_msg u.now_us).2

/-- The filled amount currently stored for an id (zero when absent). -/
def filledOf (m : OrderManager) (client_order_id : String) : ℚ :=
  ((get_order m client_order_id).map Order.filled_amount).getD 0

/-- The stored filled amounts observed along a sequence of `update_order`
calls on one id: the value before the first call and after each call. -/
def filledTrace (m : OrderManager) (client_order_id : String) :
    List UpdateArgs → List ℚ
  | [] => [filledOf m client_order_id]
  | u :: us =>
      filledOf m client_order_id ::
        filledTrace (stepUpdate m client_order_id u) client_order_id us

/-- A list of rationals is non-decreasing from left to right. -/
def nonDecreasing : List ℚ → Bool
  | [] => true
  | [_] => true
  | a :: b :: rest => decide (a ≤ b) && nonDecreasing (b :: rest)

/-- Log levels of `Logger` (DEBUG < INFO < WARNING < ERROR, by enum value). -/
inductive LogLevel where
  | DEBUG
  | INFO
  | WARNING
  | ERROR

/-- The underlying enum value used by the `level < min_level_` comparison. -/
def LogLevel.toNat : LogLevel → Nat
  | LogLevel.DEBUG => 0
  | LogLevel.INFO => 1
  | LogLevel.WARNING => 2
  | LogLevel.ERROR => 3

/-- A queued log record (`LogMessage`). -/
structure LogMessage where
  level : LogLevel
  component : String
  message : String
  timestamp_us : Int

/-- Queue-side state of `DBWriter`: capacity, pending write queue, dropped
counter.  The sqlite handle and worker thread do not affect `write_order`. -/
structure DBWriter where
  queue_capacity : Nat
  write_queue : List Order
  dropped_count : Nat

/-- `DBWriter::write_order` (DBWriter.cpp:48-60): when the queue already holds
at least `queue_capacity_` items, bump the dropped counter and return false;
otherwise enqueue the order snapshot and return true. -/
def DBWriter.write_order (w : DBWriter) (o : Order) : Bool × DBWriter :=
  if w.queue_capacity ≤ w.write_queue.length then
    (false, { w with dropped_count := w.dropped_count + 1 })
  else
    (true, { w with write_queue := w.write_queue ++ [o] })

/-- Queue-side state of `Logger`: capacity, pending message queue, dropped
counter and the minimum level filter. -/
structure Logger where
  queue_capacity : Nat
  message_queue : List LogMessage
  dropped_count : Nat
  min_level : LogLevel

/-- `Logger::log` (Logger.cpp:48-70): records below `min_level_` are dropped
before the queue (no counter bump); at capacity the message is discarded and
the dropped counter bumped; otherwise the message is enqueued (`now_us` stands
for the clock read that stamps the record). -/
def Logger.log (l : Logger) (level : LogLevel) (component message : String)
    (now_us : Int) : Logger :=
  if level.toNat < l.min_level.toNat then l
  else if l.queue_capacity ≤ l.message_queue.length then
    { l with dropped_count := l.dropped_count + 1 }
  else
    { l with
       message_queue :=
         l.message_queue ++ [⟨level, component, message, now_us⟩] }

/-- HTTP response as produced by `http_post` / `http_get`
(ExecutionGateway.cpp:204-301): success flag, status code, body. -/
structure Response where
  success : Bool
  http_status : Int
  body : String

/-- The retry budget installed by the `ExecutionGateway` constructor
(ExecutionGateway.cpp:22): `max_retries_(3)`. -/
def default_max_retries : Nat := 3

/-- The loop of `ExecutionGateway::execute_with_retry`
(ExecutionGateway.cpp:303-340) from iteration `attempt` on.  `transport n`
is the response of the HTTP call performed on iteration `n`.  Returns the
response the routine returns together with the number of backoff sleeps
performed.  A response is final when it is successful, or when its status is
neither 429 nor a 5xx, or when no attempts remain. -/
def execute_with_retry_from (transport : Nat → Response) (max_retries : Nat)
    (attempt : Nat) : Response × Nat :=
  let r := transport attempt
  if r.success then (r, 0)
  else if (r.http_status = 429 ∨ 500 ≤ r.http_status) ∧
      attempt < max_retries then
    let res := execute_with_retry_from transport max_retries (attempt + 1)
    (res.1, res.2 + 1)
  else (r, 0)
termination_by max_retries - attempt
decreasing_by omega

/-- `ExecutionGateway::execute_with_retry` (ExecutionGateway.cpp:303-340):
the loop started at attempt 0. -/
def execute_with_retry (transport : Nat → Response) (max_retries : Nat) :
    Response × Nat :=
  execute_with_retry_from transport max_retries 0

theorem mapFind_mapSet_self {α : Type} (l : List (String × α)) (k : String)
    (v : α) : mapFind (mapSet l k v) k = some v := by
  induction l with
  | nil => simp [mapSet, mapFind]
  | cons hd tl ih =>
      obtain ⟨k0, v0⟩ := hd
      by_cases h : k0 = k
      · simp [mapSet, h, mapFind]
      · simp [mapSet, h, mapFind, ih]

theorem mapFind_mapSet_ne {α : Type} (l : List (String × α)) {k k' : String}
    (hne : k ≠ k') (v : α) : mapFind (mapSet l k v) k' = mapFind l k' := by
  induction l with
  | nil => simp [mapSet, mapFind, hne]
  | cons hd tl ih =>
      obtain ⟨k0, v0⟩ := hd
      by_cases h : k0 = k
      · subst h
        simp [mapSet, mapFind, hne]
      · simp only [mapSet, if_neg h]
        by_cases h' : k0 = k'
        · simp [mapFind, h']
        · simp [mapFind, h', ih]

theorem apply_update_state (o : Order) (s : OrderState) (e : String) (f : ℚ)
    (err : String) (t : Int) : (o.apply_update s e f err t).state = s := by
  simp only [Order.apply_update]
  split_ifs <;> rfl

theorem apply_update_filled (o : Order) (s : OrderState) (e : String) (f : ℚ)
    (err : String) (t : Int) :
    (o.apply_update s e f err t).filled_amount =
      if 0 < f then f else o.filled_amount := by
  simp only [Order.apply_update]
  split_ifs <;> rfl

theorem apply_update_exch (o : Order) (s : OrderState) (e : String) (f : ℚ)
    (err : String) (t : Int) :
    (o.apply_update s e f err t).exchange_order_id =
      if e ≠ "" ∧ o.exchange_order_id = "" then e else o.exchange_order_id := by
  simp only [Order.apply_update]
  split_ifs <;> rfl

theorem apply_update_error (o : Order) (s : OrderState) (e : String) (f : ℚ)
    (err : String) (t : Int) :
    (o.apply_update s e f err t).error_message =
      if err ≠ "" then err else o.error_message := by
  simp only [Order.apply_update]
  split_ifs <;> rfl

theorem apply_update_request (o : Order) (s : OrderState) (e : String) (f : ℚ)
    (err : String) (t : Int) : (o.apply_update s e f err t).request = o.request := by
  simp only [Order.apply_update]
  split_ifs <;> rfl

theorem update_order_found (m : OrderManager) (id : String) (o : Order)
    (h : mapFind m.orders_by_client_id id = some o) (s : OrderState)
    (e : String) (f : ℚ) (err : String) (t : Int) :
    update_order m id s e f err t =
      (true,
       { m with
          orders_by_client_id :=
            mapSet m.orders_by_client_id id (o.apply_update s e f err t)
          exchange_id_to_client_id :=
            if e ≠ "" ∧ o.exchange_order_id = "" then
              mapSet m.exchange_id_to_client_id e id
            else m.exchange_id_to_client_id }) := by
  unfold update_order
  rw [h]

theorem get_order_after_update (m : OrderManager) (id : String) (o : Order)
    (h : get_order m id = some o) (s : OrderState) (e : String) (f : ℚ)
    (err : String) (t : Int) :
    get_order (update_order m id s e f err t).2 id =
      some (o.apply_update s e f err t) := by
  rw [update_order_found m id o h s e f err t]
  simp only [get_order]
  exact mapFind_mapSet_self _ _ _

theorem is_active_iff (o : Order) :
    o.is_active = true ↔
      (o.state = OrderState.OPEN ∨ o.state = OrderState.PARTIAL) := by
  unfold Order.is_active
  cases h : o.state <;> simp [h]

theorem generate_client_order_id_ne_empty (ms : Int) (c : Nat) :
    generate_client_order_id ms c ≠ "" := by
  unfold generate_client_order_id
  intro h
  have := congrArg String.length h
  simp [String.length_append] at this
  have h6 : "ORDER_".length = 6 := rfl
  omega

theorem stepUpdate_not_found (m : OrderManager) (id : String) (u : UpdateArgs)
    (h : get_order m id = none) : stepUpdate m id u = m := by
  unfold get_order at h
  simp [stepUpdate, update_order, h]

theorem get_order_stepUpdate_found (m : OrderManager) (id : String) (o : Order)
    (u : UpdateArgs) (h : get_order m id = some o) :
    get_order (stepUpdate m id u) id =
      some (o.apply_update u.new_state u.exchange_order_id u.filled_amount
        u.error_msg u.now_us) := by
  unfold stepUpdate
  exact get_order_after_update m id o h u.new_state u.exchange_order_id
    u.filled_amount u.error_msg u.now_us

theorem filled_unchanged_nonpos (m : OrderManager) (id : String)
    (u : UpdateArgs) (hf : u.filled_amount ≤ 0) :
    filledOf (stepUpdate m id u) id = filledOf m id := by
  cases hg : get_order m id with
  | none => rw [stepUpdate_not_found m id u hg]
  | some o =>
      unfold filledOf
      rw [get_order_stepUpdate_found m id o u hg, hg]
      simp [apply_update_filled, not_lt.mpr hf]

theorem nonDecreasing_cons (a : ℚ) (l : List ℚ) :
    nonDecreasing (a :: l) = true ↔
      (l = [] ∨ a ≤ l.headI) ∧ nonDecreasing l = true := by
  cases l with
  | nil => simp [nonDecreasing]
  | cons b rest => simp [nonDecreasing, List.headI]

theorem filledTrace_headI (m : OrderManager) (id : String)
    (us : List UpdateArgs) : (filledTrace m id us).headI = filledOf m id := by
  cases us <;> rfl

theorem filledTrace_nonDecreasing (us : List UpdateArgs) :
    ∀ (m : OrderManager) (id : String) (o : Order),
      get_order m id = some o →
      (∀ u ∈ us, 0 < u.filled_amount) →
      nonDecreasing (us.map UpdateArgs.filled_amount) = true →
      (us = [] ∨ o.filled_amount ≤ (us.map UpdateArgs.filled_amount).headI) →
      nonDecreasing (filledTrace m id us) = true := by
  induction us with
  | nil => intro m id o _ _ _ _; rfl
  | cons u us' ih =>
      intro m id o h hpos hmono hhead
      have hposu : 0 < u.filled_amount := hpos u (by simp)
      have hg' := get_order_stepUpdate_found m id o u h
      have ho' : (o.apply_update u.new_state u.exchange_order_id
          u.filled_amount u.error_msg u.now_us).filled_amount =
          u.filled_amount := by
        rw [apply_update_filled]
        exact if_pos hposu
      have hmono' := (nonDecreasing_cons _ _).mp (by simpa using hmono)
      rw [show filledTrace m id (u :: us') =
        filledOf m id :: filledTrace (stepUpdate m id u) id us' from rfl]
      refine (nonDecreasing_cons _ _).mpr ⟨Or.inr ?_, ?_⟩
      · rw [filledTrace_headI]
        have h1 : filledOf m id = o.filled_amount := by
          unfold filledOf
          rw [h]
          rfl
        have h2 : filledOf (stepUpdate m id u) id = u.filled_amount := by
          unfold filledOf
          rw [hg', Option.map_some', Option.getD_some, ho']
        rw [h1, h2]
        rcases hhead with hnil | hle
        · exact absurd hnil (by simp)
        · simpa using hle
      · refine ih (stepUpdate m id u) id _ hg'
          (fun v hv => hpos v (by simp [hv])) hmono'.2 ?_
        rcases hmono'.1 with hnil | hle
        · left
          simpa using hnil
        · right
          rw [ho']
          exact hle

theorem retry_result_is_attempt (t : Nat → Response) (mr : Nat) :
    ∀ (n a : Nat), mr - a ≤ n →
      ∃ k, (execute_with_retry_from t mr a).1 = t k := by
  intro n
  induction n with
  | zero =>
      intro a ha
      rw [execute_with_retry_from]
      by_cases hs : (t a).success
      · exact ⟨a, by simp [hs]⟩
      · have hc : ¬ (((t a).http_status = 429 ∨ 500 ≤ (t a).http_status) ∧
            a < mr) := by
          intro hcon
          omega
        exact ⟨a, by simp [hs, hc]⟩
  | succ n ih =>
      intro a _
      rw [execute_with_retry_from]
      by_cases hs : (t a).success
      · exact ⟨a, by simp [hs]⟩
      · by_cases hc : ((t a).http_status = 429 ∨ 500 ≤ (t a).http_status) ∧
            a < mr
        · obtain ⟨k, hk⟩ := ih (a + 1) (by omega)
          exact ⟨k, by simp [hs, hc, hk]⟩
        · exact ⟨a, by simp [hs, hc]⟩

theorem retry_nonretryable (t : Nat → Response) (mr : Nat)
    (hs : (t 0).success = false) (h429 : (t 0).http_status ≠ 429)
    (h5xx : (t 0).http_status < 500) :
    execute_with_retry t mr = (t 0, 0) := by
  unfold execute_with_retry
  rw [execute_with_retry_from]
  have hc : ¬ (((t 0).http_status = 429 ∨ 500 ≤ (t 0).http_status) ∧
      0 < mr) := by
    rintro ⟨h | h, -⟩
    · exact h429 h
    · omega
  simp [hs, hc]

theorem retry_exhaust_from (t : Nat → Response) (mr : Nat)
    (hall : ∀ k, k ≤ mr → (t k).success = false ∧
      ((t k).http_status = 429 ∨ 500 ≤ (t k).http_status)) :
    ∀ (n a : Nat), mr - a ≤ n → a ≤ mr →
      execute_with_retry_from t mr a = (t mr, mr - a) := by
  intro n
  induction n with
  | zero =>
      intro a h1 h2
      have hma : a = mr := by omega
      subst hma
      rw [execute_with_retry_from]
      have hs := (hall a le_rfl).1
      have hc : ¬ (((t a).http_status = 429 ∨ 500 ≤ (t a).http_status) ∧
          a < a) := by
        intro hcon
        omega
      simp [hs, hc]
  | succ n ih =>
      intro a h1 h2
      by_cases hma : a = mr
      · subst hma
        rw [execute_with_retry_from]
        have hs := (hall a le_rfl).1
        have hc : ¬ (((t a).http_status = 429 ∨ 500 ≤ (t a).http_status) ∧
            a < a) := by
          intro hcon
          omega
        simp [hs, hc]
      · have halt : a < mr := by omega
        rw [execute_with_retry_from]
        have hs := (hall a (le_of_lt halt)).1
        have hc : ((t a).http_status = 429 ∨ 500 ≤ (t a).http_status) ∧
            a < mr := ⟨(hall a (le_of_lt halt)).2, halt⟩
        have harith : mr - (a + 1) + 1 = mr - a := by omega
        simp [hs, hc, ih (a + 1) (by omega) (by omega), harith]

theorem retry_exhaust (t : Nat → Response) (mr : Nat)
    (hall : ∀ k, k ≤ mr → (t k).success = false ∧
      ((t k).http_status = 429 ∨ 500 ≤ (t k).http_status)) :
    execute_with_retry t mr = (t mr, mr) := by
  unfold execute_with_retry
  have := retry_exhaust_from t mr hall mr 0 (by omega) (by omega)
  simpa using this

/-- C4: `create_order` with a caller-supplied client id already present in
the primary index always fails — it returns the empty string — and performs
no mutation: the store comes back unchanged, so the existing order keeps all
its fields, no new order is inserted and no index entry changes. -/
theorem c4_create_duplicate_no_mutation (m : OrderManager)
    (req : OrderRequest) (now_ms now_us : Int)
    (hne : req.client_order_id ≠ "")
    (hdup : has_order m req.client_order_id = true) :
    create_order m req now_ms now_us = ("", m) := by
  have h' : (mapFind m.orders_by_client_id req.client_order_id).isSome =
      true := hdup
  simp [create_order, effective_client_id, hne, h']

/-- C4 witness: a second create with the explicit id "dup_test" fails and
returns the store unchanged. -/
theorem c4_witness :
    create_order
        (create_order OrderManager.empty
          ⟨"BTC-PERPETUAL", Side.BUY, 5, 1, OrderType.LIMIT, "dup_test"⟩
          0 0).2
        ⟨"BTC-PERPETUAL", Side.SELL, 6, 2, OrderType.LIMIT, "dup_test"⟩
        1 1 =
      ("",
       (create_order OrderManager.empty
         ⟨"BTC-PERPETUAL", Side.BUY, 5, 1, OrderType.LIMIT, "dup_test"⟩
         0 0).2) :=
  c4_create_duplicate_no_mutation
    (create_order OrderManager.empty
      ⟨"BTC-PERPETUAL", Side.BUY, 5, 1, OrderType.LIMIT, "dup_test"⟩
      0 0).2
    ⟨"BTC-PERPETUAL", Side.SELL, 6, 2, OrderType.LIMIT, "dup_test"⟩
    1 1 (by decide) rfl

/-- C5: whenever `create_order` succeeds (returns a non-empty id), `get_order`
with the returned id on the resulting store yields an Order whose embedded
request fields — symbol, side, price, amount, type, client order id — exactly
match the request and whose state is PENDING. -/
theorem c5_create_then_get (m : OrderManager) (req : OrderRequest)
    (now_ms now_us : Int)
    (h : (create_order m req now_ms now_us).1 ≠ "") :
    ∃ o : Order,
      get_order (create_order m req now_ms now_us).2
          (create_order m req now_ms now_us).1 = some o ∧
      o.request.symbol = req.symbol ∧
      o.request.side = req.side ∧
      o.request.price = req.price ∧
      o.request.amount = req.amount ∧
      o.request.type = req.type ∧
      o.request.client_order_id = req.client_order_id ∧
      o.state = OrderState.PENDING := by
  simp only [create_order] at h ⊢
  set m1 := if req.client_order_id = "" then
      { m with order_counter := m.order_counter + 1 }
    else m with hm1
  by_cases hdup : (mapFind m1.orders_by_client_id
      (effective_client_id m req now_ms)).isSome = true
  · rw [if_pos hdup] at h
    exact absurd rfl h
  · rw [if_neg hdup] at h ⊢
    exact ⟨_, mapFind_mapSet_self _ _ _, rfl, rfl, rfl, rfl, rfl, rfl, rfl⟩

/-- C5 witness at a concrete request with the explicit id "my_order_123". -/
theorem c5_witness :
    ∃ o : Order,
      get_order
          (create_order OrderManager.empty
            ⟨"ETH-PERPETUAL", Side.SELL, 3, 2, OrderType.LIMIT,
              "my_order_123"⟩ 4 5).2
          (create_order OrderManager.empty
            ⟨"ETH-PERPETUAL", Side.SELL, 3, 2, OrderType.LIMIT,
              "my_order_123"⟩ 4 5).1 = some o ∧
      o.request.symbol = "ETH-PERPETUAL" ∧
      o.request.side = Side.SELL ∧
      o.request.price = 3 ∧
      o.request.amount = 2 ∧
      o.request.type = OrderType.LIMIT ∧
      o.request.client_order_id = "my_order_123" ∧
      o.state = OrderState.PENDING :=
  c5_create_then_get OrderManager.empty
    ⟨"ETH-PERPETUAL", Side.SELL, 3, 2, OrderType.LIMIT, "my_order_123"⟩
    4 5 (by decide)

/-- C6: `mark_for_cancel` is pure validation: it returns true exactly when an
order with that id exists and its state is OPEN or PARTIAL — hence false for
PENDING and for the terminal states — and it returns the store unchanged
(every order and every index untouched). -/
theorem c6_mark_for_cancel_pure (m : OrderManager) (id : String) :
    ((mark_for_cancel m id).1 = true ↔
      ∃ o : Order, get_order m id = some o ∧
        (o.state = OrderState.OPEN ∨ o.state = OrderState.PARTIAL)) ∧
    (mark_for_cancel m id).2 = m := by
  unfold mark_for_cancel
  cases hg : get_order m id with
  | none =>
      refine ⟨⟨fun h => absurd h (by simp), fun h => ?_⟩, rfl⟩
      obtain ⟨o, ho, -⟩ := h
      exact absurd ho (by simp)
  | some o =>
      by_cases ha : o.is_active
      · refine ⟨⟨fun _ => ⟨o, rfl, (is_active_iff o).mp ha⟩, fun _ => ?_⟩, ?_⟩ <;>
          simp [ha]
      · refine ⟨⟨fun h => ?_, fun h => ?_⟩, by simp [ha]⟩
        · simp [ha] at h
        · obtain ⟨o', ho', hst⟩ := h
          obtain rfl : o = o' := by injection ho'
          exact absurd ((is_active_iff o).mpr hst) ha

/-- C8: for both bounded-queue workers — the persistence sink
(`DBWriter::write_order`) and the telemetry sink (`Logger::log`, for a record
at or above the minimum level) — a submit at capacity fails (returns false /
is discarded), increments the dropped-item counter by exactly one and leaves
the queue contents unchanged, while a submit below capacity appends the item
to the queue and leaves the counter untouched. -/
theorem c8_bounded_queue_submit (w : DBWriter) (o : Order) (l : Logger)
    (lvl : LogLevel) (comp msg : String) (ts : Int)
    (hlvl : ¬ lvl.toNat < l.min_level.toNat) :
    (w.write_queue.length = w.queue_capacity →
      w.write_order o =
        (false, { w with dropped_count := w.dropped_count + 1 })) ∧
    (w.write_queue.length < w.queue_capacity →
      w.write_order o =
        (true, { w with write_queue := w.write_queue ++ [o] })) ∧
    (l.message_queue.length = l.queue_capacity →
      l.log lvl comp msg ts =
        { l with dropped_count := l.dropped_count + 1 }) ∧
    (l.message_queue.length < l.queue_capacity →
      l.log lvl comp msg ts =
        { l with message_queue :=
            l.message_queue ++ [⟨lvl, comp, msg, ts⟩] }) := by
  refine ⟨fun h => ?_, fun h => ?_, fun h => ?_, fun h => ?_⟩
  · unfold DBWriter.write_order
    rw [if_pos (le_of_eq h.symm)]
  · unfold DBWriter.write_order
    rw [if_neg (not_le.mpr h)]
  · unfold Logger.log
    rw [if_neg hlvl, if_pos (le_of_eq h.symm)]
  · unfold Logger.log
    rw [if_neg hlvl, if_neg (not_le.mpr h)]

/-- C8 witness: a persistence queue of capacity 1 holding one snapshot drops
the next write and bumps its counter; a telemetry queue of capacity 0 drops an
ERROR record and bumps its counter. -/
theorem c8_witness :
    DBWriter.write_order
        ⟨1, [Order.create "A" ⟨"S", Side.BUY, 1, 1, OrderType.LIMIT, "A"⟩ 0], 0⟩
        (Order.create "A" ⟨"S", Side.BUY, 1, 1, OrderType.LIMIT, "A"⟩ 0) =
      (false,
       ⟨1, [Order.create "A" ⟨"S", Side.BUY, 1, 1, OrderType.LIMIT, "A"⟩ 0], 1⟩) ∧
    Logger.log ⟨0, [], 2, LogLevel.INFO⟩ LogLevel.ERROR "comp" "msg" 3 =
      ⟨0, [], 3, LogLevel.INFO⟩ :=
  ⟨(c8_bounded_queue_submit
      ⟨1, [Order.create "A" ⟨"S", Side.BUY, 1, 1, OrderType.LIMIT, "A"⟩ 0], 0⟩
      (Order.create "A" ⟨"S", Side.BUY, 1, 1, OrderType.LIMIT, "A"⟩ 0)
      ⟨0, [], 2, LogLevel.INFO⟩ LogLevel.ERROR "comp" "msg" 3
      (by decide)).1 rfl,
   (c8_bounded_queue_submit
      ⟨1, [Order.create "A" ⟨"S", Side.BUY, 1, 1, OrderType.LIMIT, "A"⟩ 0], 0⟩
      (Order.create "A" ⟨"S", Side.BUY, 1, 1, OrderType.LIMIT, "A"⟩ 0)
      ⟨0, [], 2, LogLevel.INFO⟩ LogLevel.ERROR "comp" "msg" 3
      (by decide)).2.2.1 rfl⟩

/-- C10: `create_order` signals failure solely by the empty string: the
effective client id (the caller-supplied one, or a generated one when it is
empty) is never empty, the call returns the empty string exactly when the
effective id is already present in the store, otherwise it returns the
effective id itself, and every generated id begins with the prefix
"ORDER_". -/
theorem c10_create_return_contract (m : OrderManager) (req : OrderRequest)
    (now_ms now_us : Int) :
    effective_client_id m req now_ms ≠ "" ∧
    ((create_order m req now_ms now_us).1 = "" ↔
      has_order m (effective_client_id m req now_ms) = true) ∧
    (has_order m (effective_client_id m req now_ms) = false →
      (create_order m req now_ms now_us).1 =
        effective_client_id m req now_ms) ∧
    (∀ (ms : Int) (c : Nat), ∃ s : String,
      generate_client_order_id ms c = "ORDER_" ++ s) := by
  have heff : effective_client_id m req now_ms ≠ "" := by
    unfold effective_client_id
    split
    · exact generate_client_order_id_ne_empty now_ms m.order_counter
    · next hne => exact hne
  have hmap : (if req.client_order_id = "" then
        { m with order_counter := m.order_counter + 1 }
      else m).orders_by_client_id = m.orders_by_client_id := by
    split <;> rfl
  have hgen : ∀ (ms : Int) (c : Nat), ∃ s : String,
      generate_client_order_id ms c = "ORDER_" ++ s := by
    intro ms c
    exact ⟨toString ms ++ "_" ++ toString c,
      by simp [generate_client_order_id, String.append_assoc]⟩
  by_cases hdup :
      (mapFind m.orders_by_client_id (effective_client_id m req now_ms)).isSome = true
  · refine ⟨heff, ?_, ?_, hgen⟩
    · simp only [create_order, hmap]
      rw [if_pos hdup]
      simp [has_order, hdup]
    · intro hfalse
      rw [has_order, hdup] at hfalse
      exact absurd hfalse (by simp)
  · have hdup' : ¬ (mapFind (if req.client_order_id = "" then
        { m with order_counter := m.order_counter + 1 }
      else m).orders_by_client_id (effective_client_id m req now_ms)).isSome = true := by
      rw [hmap]
      exact hdup
    refine ⟨heff, ?_, fun _ => ?_, hgen⟩
    · simp only [create_order]
      rw [if_neg hdup']
      constructor
      · intro hcontr
        exact absurd hcontr heff
      · intro hcontr
        rw [has_order] at hcontr
        exact absurd hcontr hdup
    · simp only [create_order]
      rw [if_neg hdup']

/-- C1 counterexample: an order driven to the terminal state FILLED is then
moved to OPEN by a further `update_order` call, so a terminal order is not
immutable — the claim fails at this concrete input. -/
theorem c1_counterexample :
    (get_order
        (stepUpdate
          (create_order OrderManager.empty
            ⟨"BTC-PERPETUAL", Side.BUY, 5, 1, OrderType.LIMIT, "A"⟩
            0 0).2
          "A" ⟨OrderState.FILLED, "", 1, "", 1⟩)
        "A").map Order.state = some OrderState.FILLED ∧
    (get_order
        (stepUpdate
          (stepUpdate
            (create_order OrderManager.empty
              ⟨"BTC-PERPETUAL", Side.BUY, 5, 1, OrderType.LIMIT, "A"⟩
              0 0).2
            "A" ⟨OrderState.FILLED, "", 1, "", 1⟩)
          "A" ⟨OrderState.OPEN, "", 0, "", 2⟩)
        "A").map Order.state = some OrderState.OPEN ∧
    OrderState.OPEN ≠ OrderState.FILLED :=
  ⟨rfl, rfl, fun h => OrderState.noConfusion h⟩

/-- C1 amended: the store does not enforce terminal-state immutability:
`update_order` on any existing order — whatever its current state, terminal
included — returns true and overwrites the state with the requested one. -/
theorem c1_update_overwrites_any_state (m : OrderManager) (id : String)
    (o : Order) (h : get_order m id = some o) (s : OrderState) (e : String)
    (f : ℚ) (err : String) (t : Int) :
    (update_order m id s e f err t).1 = true ∧
    (get_order (update_order m id s e f err t).2 id).map Order.state =
      some s := by
  constructor
  · rw [update_order_found m id o h s e f err t]
  · rw [get_order_after_update m id o h s e f err t, Option.map_some',
      apply_update_state]

/-- C1 witness: updating a FILLED order to OPEN succeeds and the stored state
becomes OPEN. -/
theorem c1_witness :
    (update_order
        (stepUpdate
          (create_order OrderManager.empty
            ⟨"BTC-PERPETUAL", Side.BUY, 5, 1, OrderType.LIMIT, "A"⟩
            0 0).2
          "A" ⟨OrderState.FILLED, "", 1, "", 1⟩)
        "A" OrderState.OPEN "" 0 "" 2).1 = true ∧
    (get_order
        (update_order
          (stepUpdate
            (create_order OrderManager.empty
              ⟨"BTC-PERPETUAL", Side.BUY, 5, 1, OrderType.LIMIT, "A"⟩
              0 0).2
            "A" ⟨OrderState.FILLED, "", 1, "", 1⟩)
          "A" OrderState.OPEN "" 0 "" 2).2 "A").map Order.state =
      some OrderState.OPEN :=
  c1_update_overwrites_any_state
    (stepUpdate
      (create_order OrderManager.empty
        ⟨"BTC-PERPETUAL", Side.BUY, 5, 1, OrderType.LIMIT, "A"⟩
        0 0).2
      "A" ⟨OrderState.FILLED, "", 1, "", 1⟩)
    "A"
    ((Order.create "A"
        ⟨"BTC-PERPETUAL", Side.BUY, 5, 1, OrderType.LIMIT, "A"⟩
        0).apply_update OrderState.FILLED "" 1 "" 1)
    rfl OrderState.OPEN "" 0 "" 2

/-- C2 counterexample: a single `update_order` with filled_amount 0 on a
fresh order leaves the stored filled-amount trace non-decreasing although the
supplied values are not all positive, so the "if and only if" of the claim
fails at this concrete input. -/
theorem c2_counterexample :
    nonDecreasing
        (filledTrace
          (create_order OrderManager.empty
            ⟨"BTC-PERPETUAL", Side.BUY, 5, 1, OrderType.LIMIT, "A"⟩
            0 0).2
          "A" [⟨OrderState.OPEN, "", 0, "", 1⟩]) = true ∧
    ¬ ((∀ u ∈ ([⟨OrderState.OPEN, "", 0, "", 1⟩] : List UpdateArgs),
          0 < u.filled_amount) ∧
       nonDecreasing
         (([⟨OrderState.OPEN, "", 0, "", 1⟩] : List UpdateArgs).map
           UpdateArgs.filled_amount) = true) :=
  ⟨rfl, fun hcon => absurd (hcon.1 ⟨OrderState.OPEN, "", 0, "", 1⟩
    (List.mem_singleton.mpr rfl)) (by decide)⟩

/-- C2 amended: only the forward direction holds: starting from an order with
filled amount 0, if all supplied filled-amount values are positive and
non-decreasing then the stored filled amount is non-decreasing along the whole
sequence of `update_order` calls; and an update with a zero or negative
filled_amount never changes the stored filled amount. -/
theorem c2_filled_monotone (m : OrderManager) (id : String) (o : Order)
    (us : List UpdateArgs) (h : get_order m id = some o)
    (h0 : o.filled_amount = 0)
    (hpos : ∀ u ∈ us, 0 < u.filled_amount)
    (hmono : nonDecreasing (us.map UpdateArgs.filled_amount) = true) :
    nonDecreasing (filledTrace m id us) = true ∧
    (∀ (m' : OrderManager) (id' : String) (u : UpdateArgs),
      u.filled_amount ≤ 0 →
      filledOf (stepUpdate m' id' u) id' = filledOf m' id') := by
  constructor
  · apply filledTrace_nonDecreasing us m id o h hpos hmono
    cases us with
    | nil => exact Or.inl rfl
    | cons u us' =>
        right
        rw [h0]
        exact le_of_lt (hpos u (by simp))
  · exact fun m' id' u hf => filled_unchanged_nonpos m' id' u hf

/-- C2 witness: two positive, non-decreasing fills on a fresh order give a
non-decreasing stored trace, and non-positive fills never change the stored
amount. -/
theorem c2_witness :
    nonDecreasing
        (filledTrace
          (create_order OrderManager.empty
            ⟨"BTC-PERPETUAL", Side.BUY, 5, 1, OrderType.LIMIT, "A"⟩
            0 0).2
          "A"
          [⟨OrderState.PARTIAL, "", 1, "", 1⟩,
           ⟨OrderState.FILLED, "", 2, "", 2⟩]) = true ∧
    (∀ (m' : OrderManager) (id' : String) (u : UpdateArgs),
      u.filled_amount ≤ 0 →
      filledOf (stepUpdate m' id' u) id' = filledOf m' id') :=
  c2_filled_monotone
    (create_order OrderManager.empty
      ⟨"BTC-PERPETUAL", Side.BUY, 5, 1, OrderType.LIMIT, "A"⟩
      0 0).2
    "A"
    (Order.create "A"
      ⟨"BTC-PERPETUAL", Side.BUY, 5, 1, OrderType.LIMIT, "A"⟩ 0)
    [⟨OrderState.PARTIAL, "", 1, "", 1⟩, ⟨OrderState.FILLED, "", 2, "", 2⟩]
    rfl rfl (by decide) rfl

/-- C3 counterexample: two different orders are given the same exchange id
"E1"; the first order's stored exchange id is "E1", yet
`get_order_by_exchange_id "E1"` returns the second order, because the second
assignment remapped the secondary index — the claim's index invariant fails
at this concrete input. -/
theorem c3_counterexample :
    (get_order
        (stepUpdate
          (stepUpdate
            (create_order
              (create_order OrderManager.empty
                ⟨"BTC-PERPETUAL", Side.BUY, 5, 1, OrderType.LIMIT, "A"⟩
                0 0).2
              ⟨"BTC-PERPETUAL", Side.SELL, 6, 1, OrderType.LIMIT, "B"⟩
              1 1).2
            "A" ⟨OrderState.OPEN, "E1", 0, "", 2⟩)
          "B" ⟨OrderState.OPEN, "E1", 0, "", 3⟩)
        "A").map Order.exchange_order_id = some "E1" ∧
    (get_order_by_exchange_id
        (stepUpdate
          (stepUpdate
            (create_order
              (create_order OrderManager.empty
                ⟨"BTC-PERPETUAL", Side.BUY, 5, 1, OrderType.LIMIT, "A"⟩
                0 0).2
              ⟨"BTC-PERPETUAL", Side.SELL, 6, 1, OrderType.LIMIT, "B"⟩
              1 1).2
            "A" ⟨OrderState.OPEN, "E1", 0, "", 2⟩)
          "B" ⟨OrderState.OPEN, "E1", 0, "", 3⟩)
        "E1").map Order.client_order_id = some "B" ∧
    ("B" : String) ≠ "A" :=
  ⟨rfl, rfl, by decide⟩

/-- C3 amended: per order, the exchange id is first-write-wins: once
non-empty it survives any further update, whatever exchange id that update
carries; and immediately after the update that sets exchange id `e` on an
order, the secondary index maps `e` to that order, so
`get_order_by_exchange_id e` returns exactly the order `get_order` returns
for that client id — the mapping persists only until a later update assigns
the same `e` to a different order. -/
theorem c3_exchange_id_first_write_wins (m : OrderManager) (id : String)
    (o : Order) (h : get_order m id = some o) (s : OrderState) (e : String)
    (f : ℚ) (err : String) (t : Int) :
    (o.exchange_order_id ≠ "" →
      (get_order (update_order m id s e f err t).2 id).map
          Order.exchange_order_id = some o.exchange_order_id) ∧
    (o.exchange_order_id = "" → e ≠ "" →
      get_order_by_exchange_id (update_order m id s e f err t).2 e =
        get_order (update_order m id s e f err t).2 id ∧
      (get_order (update_order m id s e f err t).2 id).map
          Order.exchange_order_id = some e) := by
  constructor
  · intro hne
    rw [get_order_after_update m id o h s e f err t, Option.map_some',
      apply_update_exch]
    have hc : ¬ (e ≠ "" ∧ o.exchange_order_id = "") := by
      rintro ⟨-, hemp⟩
      exact hne hemp
    rw [if_neg hc]
  · intro hemp hne
    have hc : e ≠ "" ∧ o.exchange_order_id = "" := ⟨hne, hemp⟩
    constructor
    · rw [update_order_found m id o h s e f err t]
      unfold get_order_by_exchange_id
      rw [if_pos hc, mapFind_mapSet_self]
    · rw [get_order_after_update m id o h s e f err t, Option.map_some',
        apply_update_exch, if_pos hc]

/-- C3 witness: setting "EX9" on a fresh order makes the secondary index
resolve "EX9" to that order, and a later conflicting update cannot overwrite
the stored exchange id. -/
theorem c3_witness :
    get_order_by_exchange_id
        (update_order
          (create_order OrderManager.empty
            ⟨"BTC-PERPETUAL", Side.BUY, 5, 1, OrderType.LIMIT, "A"⟩
            0 0).2
          "A" OrderState.OPEN "EX9" 0 "" 1).2 "EX9" =
      get_order
        (update_order
          (create_order OrderManager.empty
            ⟨"BTC-PERPETUAL", Side.BUY, 5, 1, OrderType.LIMIT, "A"⟩
            0 0).2
          "A" OrderState.OPEN "EX9" 0 "" 1).2 "A" ∧
    (get_order
        (update_order
          (create_order OrderManager.empty
            ⟨"BTC-PERPETUAL", Side.BUY, 5, 1, OrderType.LIMIT, "A"⟩
            0 0).2
          "A" OrderState.OPEN "EX9" 0 "" 1).2 "A").map
        Order.exchange_order_id = some "EX9" :=
  (c3_exchange_id_first_write_wins
    (create_order OrderManager.empty
      ⟨"BTC-PERPETUAL", Side.BUY, 5, 1, OrderType.LIMIT, "A"⟩
      0 0).2
    "A"
    (Order.create "A"
      ⟨"BTC-PERPETUAL", Side.BUY, 5, 1, OrderType.LIMIT, "A"⟩ 0)
    rfl OrderState.OPEN "EX9" 0 "" 1).2 rfl (by decide)

/-- C7 counterexample: two consecutive updates carrying the non-empty error
messages "err1" and "err2" leave the stored message equal to "err2" — the
second message replaced the first instead of being appended, so the claim's
append semantics fails at this concrete input. -/
theorem c7_counterexample :
    (get_order
        (stepUpdate
          (stepUpdate
            (create_order OrderManager.empty
              ⟨"BTC-PERPETUAL", Side.BUY, 5, 1, OrderType.LIMIT, "A"⟩
              0 0).2
            "A" ⟨OrderState.REJECTED, "", 0, "err1", 1⟩)
          "A" ⟨OrderState.REJECTED, "", 0, "err2", 2⟩)
        "A").map Order.error_message = some "err2" ∧
    ("err2" : String) ≠ "err1" ++ "err2" ∧
    ("err2" : String) ≠ "err1" :=
  ⟨rfl, by decide, by decide⟩

/-- C7 amended: `update_order` touches the stored error message only when the
incoming one is non-empty, and then it replaces (not appends to) the previous
message: an empty incoming message never clears or changes an already-set
message. -/
theorem c7_error_message_replace (m : OrderManager) (id : String) (o : Order)
    (h : get_order m id = some o) (s : OrderState) (e : String) (f : ℚ)
    (t : Int) :
    ((get_order (update_order m id s e f "" t).2 id).map Order.error_message =
      some o.error_message) ∧
    (∀ err : String, err ≠ "" →
      (get_order (update_order m id s e f err t).2 id).map
          Order.error_message = some err) := by
  constructor
  · rw [get_order_after_update m id o h s e f "" t, Option.map_some',
      apply_update_error]
    simp
  · intro err herr
    rw [get_order_after_update m id o h s e f err t, Option.map_some',
      apply_update_error, if_pos herr]

/-- C7 witness: on an order whose stored message is "err1", an update with an
empty message keeps "err1" and an update with "err2" stores exactly "err2". -/
theorem c7_witness :
    ((get_order
        (update_order
          (stepUpdate
            (create_order OrderManager.empty
              ⟨"BTC-PERPETUAL", Side.BUY, 5, 1, OrderType.LIMIT, "A"⟩
              0 0).2
            "A" ⟨OrderState.REJECTED, "", 0, "err1", 1⟩)
          "A" OrderState.REJECTED "" 0 "" 2).2 "A").map Order.error_message =
      some "err1") ∧
    (∀ err : String, err ≠ "" →
      (get_order
          (update_order
            (stepUpdate
              (create_order OrderManager.empty
                ⟨"BTC-PERPETUAL", Side.BUY, 5, 1, OrderType.LIMIT, "A"⟩
                0 0).2
              "A" ⟨OrderState.REJECTED, "", 0, "err1", 1⟩)
            "A" OrderState.REJECTED "" 0 err 2).2 "A").map
          Order.error_message = some err) := by
  have h := c7_error_message_replace
    (stepUpdate
      (create_order OrderManager.empty
        ⟨"BTC-PERPETUAL", Side.BUY, 5, 1, OrderType.LIMIT, "A"⟩
        0 0).2
      "A" ⟨OrderState.REJECTED, "", 0, "err1", 1⟩)
    "A"
    ((Order.create "A"
        ⟨"BTC-PERPETUAL", Side.BUY, 5, 1, OrderType.LIMIT, "A"⟩
        0).apply_update OrderState.REJECTED "" 0 "err1" 1)
    rfl OrderState.REJECTED "" 0 2
  exact ⟨h.1, h.2⟩

/-- C9: the retry routine treats an attempt as successful only on a 2xx
status (given a transport whose success flag is 2xx-derived, as `http_post`
and `http_get` produce); the default retry budget installed by the
constructor is 3; a failing status that is neither 429 nor 5xx (such as 404)
is returned immediately with no retry and no backoff sleep; and when every
attempt fails with a retryable status the routine performs exactly
`max_retries` sleeps and returns the last failure as-is. -/
theorem c9_retry_policy (t : Nat → Response) (mr : Nat) :
    default_max_retries = 3 ∧
    ((∀ n, (t n).success = true ↔
        (200 ≤ (t n).http_status ∧ (t n).http_status < 300)) →
      ((execute_with_retry t mr).1.success = true ↔
        (200 ≤ (execute_with_retry t mr).1.http_status ∧
         (execute_with_retry t mr).1.http_status < 300))) ∧
    ((t 0).success = false → (t 0).http_status ≠ 429 →
      (t 0).http_status < 500 → execute_with_retry t mr = (t 0, 0)) ∧
    ((∀ k, k ≤ mr → (t k).success = false ∧
        ((t k).http_status = 429 ∨ 500 ≤ (t k).http_status)) →
      execute_with_retry t mr = (t mr, mr)) := by
  refine ⟨rfl, ?_, retry_nonretryable t mr, retry_exhaust t mr⟩
  intro h2
  obtain ⟨k, hk⟩ := retry_result_is_attempt t mr mr 0 (by omega)
  have hk' : (execute_with_retry t mr).1 = t k := hk
  rw [hk']
  exact h2 k

/-- C9 witness: against a transport that always answers 404, the routine with
the default budget of 3 returns the 404 failure at once, with zero backoff
sleeps. -/
theorem c9_witness :
    execute_with_retry (fun _ => ⟨false, 404, "Not Found"⟩)
        default_max_retries =
      (⟨false, 404, "Not Found"⟩, 0) :=
  (c9_retry_policy (fun _ => ⟨false, 404, "Not Found"⟩)
    default_max_retries).2.2.1 rfl (by decide) (by decide)

end PulseExec
